import Mathlib

/-!
Shallow embedding of the retrieval, ranking and context-assembly engine of the
ai-questions repository (src/local/wikipedia_search.py and
src/local-version/enhanced_wikipedia_api.py), with proofs settling the frozen
claims about it.

Modelling conventions:
* Python floats are modelled by the rationals.  Every numeric constant in the
  source is exactly representable and the arithmetic the claims touch is
  addition, multiplication, division, abs and min, so the rational model is the
  source computation without floating-point rounding, on which no claim depends.
* Python strings are Lean strings; len, slicing and the substring operator `in`
  are modelled character-wise.  The regex class `\w` is modelled as ASCII
  alphanumeric or underscore (all exercised inputs are ASCII).
* The SQLite FTS5 backend is an opaque parameter `fts` mapping the prepared FTS
  query string to the row list returned by the
  `SELECT ... MATCH ? ORDER BY fts.rank DESC` statement, already in backend
  rank order; the SQL `LIMIT ?` is applied by taking a prefix.  Exact-title
  lookups (`WHERE title = ? LIMIT 1`) run against an explicit table
  `db : List ArticleRow`, first match wins, like SQLite table order.
* Python dict (insertion ordered) is modelled by an association list in
  insertion order; assignment to an already-present key keeps the position of
  the old entry, as CPython dicts do.
* Python's stable `list.sort(key=..., reverse=True)` / `sorted(...)` is
  modelled by Mathlib's stable insertion sort with the corresponding relation.
* Values `row['summary'] or ''` are modelled by a plain string field (None and
  the empty string coincide).  `categories` arrives JSON-decoded; the JSON
  plumbing is outside the modelled core.
* Diagnostic `status_log` strings, logging calls and the JSON serialisation of
  results are omitted: no claim mentions them.  `try/except` blocks wrapping
  total modelled code are dropped.
-/

attribute [local semireducible] Rat.add Rat.mul Rat.inv Rat.sub Rat.ofScientific

/-- Python str.lower, modelled characterwise (ASCII case mapping). -/
def lowerStr (s : String) : String := String.mk (s.toList.map Char.toLower)

/-- Python str.strip: whitespace removed from both ends. -/
def trimStr (s : String) : String :=
  String.mk (((s.toList.dropWhile Char.isWhitespace).reverse.dropWhile
    Char.isWhitespace).reverse)

/-- Python regex word character `\w`, ASCII fragment: alphanumeric or underscore. -/
def isWordChar (c : Char) : Bool := c.isAlphanum || c = '_'

/-- Maximal runs of word characters of a string; `re.findall` of a pattern of
the shape `\b...\b` over a full word-class body returns exactly the maximal
`\w`-runs that match the body in full, in scan order. -/
def wordRuns (s : String) : List String :=
  ((s.toList.splitOnP (fun c => !isWordChar c)).filter (fun l => l ≠ [])).map
    (fun l => String.mk l)

/-- Token set of a string: Python `set(re.findall(r'\b\w+\b', s))`. -/
def wordSet (s : String) : Finset String := (wordRuns s).toFinset

/-- Token set restricted to tokens of length at least 3:
Python `set(re.findall(r'\b\w{3,}\b', s))`. -/
def wordSet3 (s : String) : Finset String :=
  ((wordRuns s).filter (fun w => 3 ≤ w.length)).toFinset

def prefixL : List Char → List Char → Bool
  | [], _ => true
  | _ :: _, [] => false
  | a :: as, b :: bs => a = b && prefixL as bs

/-- Substring test on character lists. -/
def substrL (n : List Char) : List Char → Bool
  | [] => n.isEmpty
  | c :: t => prefixL n (c :: t) || substrL n t

/-- Python substring containment `needle in hay`. -/
def substrS (needle hay : String) : Bool := substrL needle.toList hay.toList

/-- Python slice `s[:n]` for a nonnegative bound. -/
def strTake (s : String) (n : Nat) : String := String.mk (s.toList.take n)

/-- Row of the wikipedia_articles table. -/
structure ArticleRow where
  id : Nat
  article_id : String
  title : String
  summary : String
  content : String
  categories : List String
deriving DecidableEq, Repr

/-- Row produced by the FTS join in WikipediaSearchEngine.search: an article
row plus the backend rank column and the raw `snippet(...)` column. -/
structure FtsRow where
  art : ArticleRow
  rank : ℚ
  rawSnippet : String
deriving DecidableEq, Repr

/-- The SearchResult dataclass of wikipedia_search.py. -/
structure SearchResult where
  id : Nat
  article_id : String
  title : String
  summary : String
  content : String
  categories : List String
  relevance_score : ℚ
  snippet : String
deriving DecidableEq, Repr

/-- Overlap ratio `len(A & B) / len(A) if A else 0` used by the relevance scorer. -/
def overlap_ratio (qw ws : Finset String) : ℚ :=
  if qw.Nonempty then ((qw ∩ ws).card : ℚ) / (qw.card : ℚ) else 0

/-- Pre-clamp relevance sum of WikipediaSearchEngine.calculate_relevance_score:
title exact-substring bonus 1.0, title word overlap weighted 0.8, summary word
overlap weighted 0.5 when the summary is nonempty, and the normalized FTS rank
`min(abs(rank)/100, 0.3)` (with rank treated as 0 when falsy). -/
def raw_relevance_score (query : String) (row : FtsRow) : ℚ :=
  (if substrS (lowerStr query) (lowerStr row.art.title) then (1 : ℚ) else 0)
    + overlap_ratio (wordSet (lowerStr query)) (wordSet (lowerStr row.art.title)) * (8 / 10)
    + (if (lowerStr row.art.summary) ≠ "" then
        overlap_ratio (wordSet (lowerStr query)) (wordSet (lowerStr row.art.summary)) * (5 / 10)
      else 0)
    + min ((if row.rank ≠ 0 then |row.rank| else 0) / 100) (3 / 10)

/-- WikipediaSearchEngine.calculate_relevance_score: the pre-clamp sum capped at 1.0. -/
def calculate_relevance_score (query : String) (row : FtsRow) : ℚ :=
  min (raw_relevance_score query row) 1

/-- WikipediaSearchEngine.prepare_fts_query: single token verbatim, phrase
syntax for 2-3 tokens, AND-join of the first 5 tokens otherwise; the original
query when it has no tokens. -/
def prepare_fts_query (query : String) : String :=
  match wordRuns (lowerStr query) with
  | [] => query
  | [w] => w
  | w1 :: w2 :: rest =>
    if (w1 :: w2 :: rest).length ≤ 3 then
      "\"" ++ String.intercalate " " (w1 :: w2 :: rest) ++ "\""
    else String.intercalate " AND " ((w1 :: w2 :: rest).take 5)

/-- Collapsing step used to model `re.sub(r'\s+', ' ', snippet)` by a right fold. -/
def wsStep (c : Char) (acc : List Char) : List Char :=
  if c.isWhitespace then
    match acc with
    | ' ' :: _ => acc
    | _ => ' ' :: acc
  else c :: acc

/-- WikipediaSearchEngine.clean_snippet: collapse whitespace runs, strip, and
truncate to 200 characters with an ellipsis marker. -/
def clean_snippet (snippet : String) : String :=
  if snippet = "" then ""
  else
    let collapsed := snippet.toList.foldr wsStep []
    let stripped :=
      ((collapsed.dropWhile (fun c => c = ' ')).reverse.dropWhile (fun c => c = ' ')).reverse
    if 200 < stripped.length then String.mk (stripped.take 200) ++ "..."
    else String.mk stripped

/-- Construction of a SearchResult from an FTS row inside WikipediaSearchEngine.search. -/
def toSearchResult (row : FtsRow) (relevance_score : ℚ) : SearchResult :=
  { id := row.art.id
    article_id := row.art.article_id
    title := row.art.title
    summary := row.art.summary
    content := row.art.content
    categories := row.art.categories
    relevance_score := relevance_score
    snippet := clean_snippet row.rawSnippet }

/-- WikipediaSearchEngine.search: empty result on a blank query; otherwise the
backend rows for the prepared query, in backend order, scored one by one, and
kept exactly when the score clears min_score.  The source performs no re-sort. -/
def search (fts : String → List FtsRow) (query : String) (limit : Nat) (min_score : ℚ) :
    List SearchResult :=
  if (trimStr query) = "" then []
  else
    ((fts (prepare_fts_query query)).take limit).filterMap (fun row =>
      let relevance_score := calculate_relevance_score query row
      if min_score ≤ relevance_score then some (toSearchResult row relevance_score) else none)

/-- Regex alternative `\b[A-Z][a-z]+\b`: a full word run consisting of one
uppercase letter followed by one or more lowercase letters. -/
def isCapWord (w : String) : Bool :=
  match w.toList with
  | c :: rest => c.isUpper && !rest.isEmpty && rest.all (fun d => d.isLower)
  | [] => false

/-- Regex alternative `\b[a-z]{4,}\b`: a full word run of at least four
lowercase letters. -/
def isLongLowerWord (w : String) : Bool :=
  w.toList.all (fun d => d.isLower) && 4 ≤ w.length

/-- Case-insensitive order-preserving deduplication of generated queries,
with `seen` holding the lowercased queries already emitted. -/
def dedupCIAux : List String → List String → List String
  | [], _ => []
  | q :: rest, seen =>
    if (lowerStr q) ∈ seen then dedupCIAux rest seen
    else q :: dedupCIAux rest ((lowerStr q) :: seen)

/-- EnhancedWikipediaAPI.generate_search_queries: the stripped question, then
up to three important words (capitalized word or lowercase word of length at
least 4, in scan order) of length above 3, then the pair of the first two
important words; deduplicated case-insensitively and capped at 5. -/
def generate_search_queries (question : String) : List String :=
  let words := (wordRuns question).filter (fun w => isCapWord w || isLongLowerWord w)
  let queries :=
    [(trimStr question)] ++
      (if words ≠ [] then
        ((words.take 3).filter (fun w => 3 < w.length)) ++
          (match words with
          | w1 :: w2 :: _ => [w1 ++ " " ++ w2]
          | _ => [])
      else [])
  (dedupCIAux queries []).take 5

def question_stop_words : List String :=
  ["what", "is", "are", "how", "why", "when", "where", "who", "which", "the", "a", "an"]

/-- Python str.capitalize: first character uppercased, the rest lowercased. -/
def capitalizeWord (w : String) : String :=
  match w.toList with
  | [] => ""
  | c :: rest => String.mk (c.toUpper :: rest.map Char.toLower)

/-- EnhancedWikipediaAPI.extract_key_terms: the all-letter word runs of the
lowercased question that are not stop words and are longer than 2 characters,
each capitalized. -/
def extract_key_terms (question : String) : List String :=
  let words := (wordRuns (lowerStr question)).filter (fun w => w.toList.all (fun c => c.isAlpha))
  (words.filter (fun w => !question_stop_words.contains w && 2 < w.length)).map capitalizeWord

/-- Merge insertion `if result.article_id not in all_results: all_results[...] = result`:
append only when the key is absent. -/
def insertIfAbsent (m : List SearchResult) (r : SearchResult) : List SearchResult :=
  if m.any (fun x => x.article_id == r.article_id) then m else m ++ [r]

/-- Python dict assignment `all_results[k] = v`: replace in place when the key
is present (keeping its position), otherwise append. -/
def insertOrReplace (m : List SearchResult) (r : SearchResult) : List SearchResult :=
  if m.any (fun x => x.article_id == r.article_id) then
    m.map (fun x => if x.article_id == r.article_id then r else x)
  else m ++ [r]

/-- Variant-search merge loop of search_with_multiple_queries: each variant is
searched with min_score 0.001 and its hits inserted first-occurrence-wins. -/
def merge_variant_results (fts : String → List FtsRow) (queries : List String) (limit : Nat) :
    List SearchResult :=
  queries.foldl (fun acc q => (search fts q limit (1 / 1000)).foldl insertIfAbsent acc) []

/-- SearchResult built for the exact-title backstop match (relevance 1.0,
snippet the first 200 characters of the summary). -/
def exact_match_result (a : ArticleRow) : SearchResult :=
  { id := a.id, article_id := a.article_id, title := a.title, summary := a.summary,
    content := a.content, categories := a.categories, relevance_score := 1,
    snippet := if a.summary ≠ "" then strTake a.summary 200 else "" }

/-- SearchResult built for a key-term exact-title match (relevance 0.9). -/
def key_term_result (a : ArticleRow) : SearchResult :=
  { exact_match_result a with relevance_score := 9 / 10 }

/-- Exact lookup `SELECT * FROM wikipedia_articles WHERE title = ? LIMIT 1`. -/
def exactTitleLookup (db : List ArticleRow) (t : String) : Option ArticleRow :=
  db.find? (fun a => a.title == t)

/-- Exact-title recall backstop of search_with_multiple_queries: the matched
article is assigned into the mapping unconditionally (a plain dict assignment
with no presence check). -/
def apply_exact_backstop (db : List ArticleRow) (question : String)
    (m : List SearchResult) : List SearchResult :=
  match exactTitleLookup db (trimStr question) with
  | some a => insertOrReplace m (exact_match_result a)
  | none => m

/-- Key-term recall backstop: each key term is looked up exactly and a match is
appended only when its article_id is not already present. -/
def apply_key_term_backstops (db : List ArticleRow) (question : String)
    (m : List SearchResult) : List SearchResult :=
  (extract_key_terms question).foldl (fun acc term =>
    match exactTitleLookup db term with
    | some a =>
        if acc.any (fun x => x.article_id == a.article_id) then acc
        else acc ++ [key_term_result a]
    | none => acc) m

/-- Contents of the all_results mapping after the variant merge and both
backstops, in insertion order. -/
def merged_candidates (fts : String → List FtsRow) (db : List ArticleRow)
    (question : String) (limit : Nat) : List SearchResult :=
  apply_key_term_backstops db question
    (apply_exact_backstop db question
      (merge_variant_results fts (generate_search_queries question) limit))

/-- Descending-score order used by `final_results.sort(key=..., reverse=True)`. -/
def scoreGE (a b : SearchResult) : Prop := b.relevance_score ≤ a.relevance_score

instance : DecidableRel scoreGE := fun a b =>
  inferInstanceAs (Decidable (b.relevance_score ≤ a.relevance_score))

instance : IsTotal SearchResult scoreGE :=
  ⟨fun a b => le_total b.relevance_score a.relevance_score⟩

instance : IsTrans SearchResult scoreGE :=
  ⟨fun _ _ _ h1 h2 => le_trans h2 h1⟩

/-- Python's stable sort by relevance_score descending. -/
def sortByScoreDesc (l : List SearchResult) : List SearchResult :=
  List.insertionSort scoreGE l

/-- Pre-clamp sum of EnhancedWikipediaAPI.assess_article_relevance: overlap of
question words (length at least 3) with title words weighted 0.8, with summary
words weighted 0.4 when the summary is nonempty, plus 0.3/0.1 for every
question word longer than 4 characters occurring literally in the title/summary,
plus a flat 0.2 when any question word longer than 3 characters occurs in the
title. -/
def raw_assess (question : String) (article : SearchResult) : ℚ :=
  (if (wordSet3 (lowerStr question) ∩ wordSet3 (lowerStr article.title)).Nonempty then
      (((wordSet3 (lowerStr question) ∩ wordSet3 (lowerStr article.title)).card : ℚ) /
        ((wordSet3 (lowerStr question)).card : ℚ)) * (8 / 10)
    else 0)
    + (if (lowerStr article.summary) ≠ "" then
        (if (wordSet3 (lowerStr question) ∩ wordSet3 (lowerStr article.summary)).Nonempty then
          (((wordSet3 (lowerStr question) ∩ wordSet3 (lowerStr article.summary)).card : ℚ) /
            ((wordSet3 (lowerStr question)).card : ℚ)) * (4 / 10)
        else 0)
      else 0)
    + Finset.sum ((wordSet3 (lowerStr question)).filter (fun w => 4 < w.length)) (fun w =>
        (if substrS w (lowerStr article.title) then (3 / 10 : ℚ) else 0) +
          (if substrS w (lowerStr article.summary) then (1 / 10 : ℚ) else 0))
    + (if ∃ w ∈ wordSet3 (lowerStr question), 3 < w.length ∧ substrS w (lowerStr article.title)
      then (2 / 10 : ℚ) else 0)

/-- EnhancedWikipediaAPI.assess_article_relevance: the pre-clamp sum capped at 1.0. -/
def assess_article_relevance (question : String) (article : SearchResult) : ℚ :=
  min (raw_assess question article) 1

/-- Review-stage copy of a candidate carrying the reassessed score. -/
def reviewed (question : String) (r : SearchResult) : SearchResult :=
  { r with relevance_score := assess_article_relevance question r }

/-- Review loop of search_with_multiple_queries: each candidate is reassessed
against the original question and kept, carrying the new score, exactly when
the new score exceeds 0.05. -/
def review_results (question : String) (l : List SearchResult) : List SearchResult :=
  l.filterMap (fun r =>
    let relevance := assess_article_relevance question r
    if 1 / 20 < relevance then some { r with relevance_score := relevance } else none)

/-- Return value of search_with_multiple_queries restricted to the fields the
claims mention. -/
structure MultiSearchOutput where
  results : List SearchResult
  search_queries : List String
deriving DecidableEq, Repr

/-- EnhancedWikipediaAPI.search_with_multiple_queries: variant generation,
per-variant search and first-wins merge, the two exact-title backstops, a
stable sort by the merged scores descending, truncation to limit, and the
review pass that overwrites each kept entry's score. -/
def search_with_multiple_queries (fts : String → List FtsRow) (db : List ArticleRow)
    (question : String) (limit : Nat) : MultiSearchOutput :=
  { results :=
      review_results question
        ((sortByScoreDesc (merged_candidates fts db question limit)).take limit)
    search_queries := generate_search_queries question }

/-- Selection loop of WikipediaContextExtractor.select_best_articles: walk the
sorted results, stop as soon as max_articles are selected, keep only results
with relevance at least 0.2. -/
def select_loop (max_articles : Nat) : List SearchResult → List SearchResult → List SearchResult
  | [], selected => selected
  | r :: rest, selected =>
    if max_articles ≤ selected.length then selected
    else if 1 / 5 ≤ r.relevance_score then select_loop max_articles rest (selected ++ [r])
    else select_loop max_articles rest selected

/-- WikipediaContextExtractor.select_best_articles: stable sort by relevance
descending, then the selection loop. -/
def select_best_articles (search_results : List SearchResult) (max_articles : Nat) :
    List SearchResult :=
  select_loop max_articles (sortByScoreDesc search_results) []

/-- Text chosen for an article block: the summary, else the first 500
characters of the content. -/
def article_text (a : SearchResult) : String :=
  if a.summary ≠ "" then a.summary else strTake a.content 500

/-- Attributed block `**title**\n<text>\n` of build_context_text. -/
def article_block (a : SearchResult) : String :=
  "**" ++ a.title ++ "**\n" ++ article_text a ++ "\n"

/-- Packing loop of build_context_text: returns the collected context_parts and
the final value of current_length.  A block is appended in full only when it
fits the budget; on overflow a truncated block (with 50 characters of slack,
only when more than 100 characters remain) may be appended without being
counted, and the loop stops. -/
def context_pack (max_length : Nat) : List SearchResult → Nat → List String × Nat
  | [], current_length => ([], current_length)
  | a :: rest, current_length =>
    if max_length < current_length + (article_block a).length then
      if 100 < (max_length : ℤ) - (current_length : ℤ) - 50 then
        (["**" ++ a.title ++ "**\n"
            ++ (strTake (article_text a) ((max_length : ℤ) - (current_length : ℤ) - 50).toNat
              ++ "...")
            ++ "\n"],
          current_length)
      else ([], current_length)
    else
      ((article_block a)
          :: (context_pack max_length rest (current_length + (article_block a).length)).1,
        (context_pack max_length rest (current_length + (article_block a).length)).2)

/-- WikipediaContextExtractor.build_context_text: the sentinel for an empty
selection, otherwise the packed blocks joined by newlines followed by the
source-attribution line listing every candidate's title. -/
def build_context_text (articles : List SearchResult) (max_length : Nat) : String :=
  if articles = [] then "No relevant information found."
  else
    String.intercalate "\n" (context_pack max_length articles 0).1
      ++ "\n*Sources: " ++ String.intercalate ", " (articles.map (fun a => a.title)) ++ "*"

/-- Token set of `(article.title + " " + article.summary).lower()`. -/
def article_tokens (a : SearchResult) : Finset String :=
  wordSet (lowerStr (a.title ++ " " ++ a.summary))

/-- WikipediaContextExtractor.calculate_confidence_score: 0 for an empty
selection, else 0.5 x mean relevance + 0.3 x min(count/3, 1) + 0.2 x coverage,
capped at 1, where coverage accumulates the distinct query words (of any
length) found in the articles' title+summary token sets. -/
def calculate_confidence_score (articles : List SearchResult) (query : String) : ℚ :=
  if articles = [] then 0
  else
    (fun covered_words =>
      min ((articles.map (fun a => a.relevance_score)).sum / (articles.length : ℚ) * (5 / 10)
        + min ((articles.length : ℚ) / 3) 1 * (3 / 10)
        + (if (wordSet (lowerStr query)).Nonempty then
            ((covered_words : Finset String).card : ℚ) / ((wordSet (lowerStr query)).card : ℚ)
          else 0) * (2 / 10)) 1)
    (articles.foldl (fun acc a => acc ∪ (article_tokens a ∩ wordSet (lowerStr query))) ∅)

/-- The WikipediaContext dataclass. -/
structure WikipediaContext where
  query : String
  sources : List SearchResult
  context_text : String
  total_articles : Nat
  confidence_score : ℚ
deriving DecidableEq, Repr

/-- WikipediaContextExtractor.get_context_for_query (Python defaults at the
call boundary: max_length 2000, max_articles 5; the inner search uses limit
`max_articles * 2` and the default min_score 0.1). -/
def get_context_for_query (fts : String → List FtsRow) (query : String)
    (max_length : Nat) (max_articles : Nat) : WikipediaContext :=
  let search_results := search fts query (max_articles * 2) (1 / 10)
  if search_results = [] then
    { query := query, sources := [], context_text := "No relevant Wikipedia articles found.",
      total_articles := 0, confidence_score := 0 }
  else
    let selected_articles := select_best_articles search_results max_articles
    { query := query
      sources := selected_articles
      context_text := build_context_text selected_articles max_length
      total_articles := selected_articles.length
      confidence_score := calculate_confidence_score selected_articles query }

/-- Statement device: a Boolean test that a score list is descending. -/
def sortedDescBool : List ℚ → Bool
  | [] => true
  | [_] => true
  | a :: b :: t => decide (b ≤ a) && sortedDescBool (b :: t)

/-- Confidence formula exactly as claim C6 states it: the coverage ratio counts
only distinct question words of at least 3 characters that appear in some
included candidate's title+summary tokens, divided by the total number of
distinct question words of at least 3 characters. -/
def claimed_confidence (articles : List SearchResult) (query : String) : ℚ :=
  if articles = [] then 0
  else
    (fun qw3 =>
      min ((articles.map (fun a => a.relevance_score)).sum / (articles.length : ℚ) * (5 / 10)
        + min ((articles.length : ℚ) / 3) 1 * (3 / 10)
        + (if (qw3 : Finset String).Nonempty then
            ((qw3.filter (fun w => ∃ a ∈ articles, w ∈ article_tokens a)).card : ℚ) /
              (qw3.card : ℚ)
          else 0) * (2 / 10)) 1)
    ((wordSet (lowerStr query)).filter (fun w => 3 ≤ w.length))

/-- Confidence formula as amended: identical to the source computation, with
the coverage ratio expressed as the fraction of distinct question words (of any
length) that appear in some included candidate's title+summary tokens. -/
def amended_confidence (articles : List SearchResult) (query : String) : ℚ :=
  if articles = [] then 0
  else
    (fun qws =>
      min ((articles.map (fun a => a.relevance_score)).sum / (articles.length : ℚ) * (5 / 10)
        + min ((articles.length : ℚ) / 3) 1 * (3 / 10)
        + (if (qws : Finset String).Nonempty then
            ((qws.filter (fun w => ∃ a ∈ articles, w ∈ article_tokens a)).card : ℚ) /
              (qws.card : ℚ)
          else 0) * (2 / 10)) 1)
    (wordSet (lowerStr query))

/-! Concrete corpora, backends and questions used by the counterexamples and
witnesses below.  Each scenario is named after the claim it settles. -/

def artC1 : SearchResult :=
  { id := 1, article_id := "T", title := "T", summary := "S", content := "", categories := [],
    relevance_score := 1, snippet := "" }

def artC2A : ArticleRow :=
  { id := 1, article_id := "A", title := "beta", summary := "alpha", content := "",
    categories := [] }

def artC2B : ArticleRow :=
  { id := 2, article_id := "B", title := "alpha", summary := "", content := "", categories := [] }

def ftsC2 : String → List FtsRow := fun q =>
  if q = "alpha" then
    [{ art := artC2A, rank := 0, rawSnippet := "" }, { art := artC2B, rank := 0, rawSnippet := "" }]
  else []

def artC3X : ArticleRow :=
  { id := 1, article_id := "X", title := "Alpha", summary := "", content := "xc", categories := [] }

def artC3Y : ArticleRow :=
  { id := 2, article_id := "Y", title := "beta gamma delta alpha", summary := "", content := "yc",
    categories := [] }

def ftsC3 : String → List FtsRow := fun q =>
  if q = "alpha" then [{ art := artC3X, rank := 0, rawSnippet := "" }]
  else if q = "beta" then [{ art := artC3Y, rank := 0, rawSnippet := "" }]
  else []

def dbC3 : List ArticleRow := [artC3X, artC3Y]

def qC3 : String := "Alpha beta gamma delta"

def artC4 : ArticleRow :=
  { id := 5, article_id := "E", title := "Epsilon  zeta kappa theta maybe", summary := "",
    content := "ec", categories := [] }

def qC4 : String := "Epsilon  zeta kappa theta maybe"

def ftsC4 : String → List FtsRow := fun q =>
  if q = "\"epsilon zeta\"" then [{ art := artC4, rank := 0, rawSnippet := "" }] else []

def dbC4 : List ArticleRow := [artC4]

def artC5 : ArticleRow :=
  { id := 1, article_id := "R", title := "alpha", summary := "", content := "c",
    categories := [] }

def rowC5 : FtsRow := { art := artC5, rank := 0, rawSnippet := "" }

def qC5 : String := "alpha beta gamma delta epsilon zeta"

def ftsC5 : String → List FtsRow := fun q =>
  if q = "alpha AND beta AND gamma AND delta AND epsilon" then [rowC5] else []

def artC6 : SearchResult :=
  { id := 1, article_id := "A", title := "alpha", summary := "", content := "", categories := [],
    relevance_score := 1, snippet := "" }

def artC7 : ArticleRow :=
  { id := 1, article_id := "A", title := "Alpha", summary := "", content := "", categories := [] }

def rowC7 : FtsRow := { art := artC7, rank := 0, rawSnippet := "" }

def artC8 : ArticleRow :=
  { id := 2, article_id := "B", title := "xaby", summary := "", content := "", categories := [] }

def rowC8 : FtsRow := { art := artC8, rank := 0, rawSnippet := "" }

def artC8w : ArticleRow :=
  { id := 3, article_id := "C", title := "beta", summary := "", content := "", categories := [] }

def rowC8w : FtsRow := { art := artC8w, rank := 0, rawSnippet := "" }

/-! Helper lemmas shared by the claim proofs. -/

theorem overlap_ratio_nonneg (qw ws : Finset String) : 0 ≤ overlap_ratio qw ws := by
  unfold overlap_ratio
  split
  · positivity
  · exact le_refl 0

theorem overlap_ratio_of_empty_inter {qw ws : Finset String} (h : qw ∩ ws = ∅) :
    overlap_ratio qw ws = 0 := by
  unfold overlap_ratio
  split
  · rw [h]
    simp
  · rfl

theorem rank_term_nonneg (x : ℚ) : 0 ≤ min ((if x ≠ 0 then |x| else 0) / 100) (3 / 10) := by
  apply le_min
  · split
    · positivity
    · norm_num
  · norm_num

theorem raw_relevance_score_nonneg (query : String) (row : FtsRow) :
    0 ≤ raw_relevance_score query row := by
  unfold raw_relevance_score
  have h1 : 0 ≤ overlap_ratio (wordSet (lowerStr query)) (wordSet (lowerStr row.art.title))
      * (8 / 10) :=
    mul_nonneg (overlap_ratio_nonneg _ _) (by norm_num)
  have h2 : (0 : ℚ) ≤
      (if (lowerStr row.art.summary) ≠ "" then
        overlap_ratio (wordSet (lowerStr query)) (wordSet (lowerStr row.art.summary)) * (5 / 10)
      else 0) := by
    split
    · exact mul_nonneg (overlap_ratio_nonneg _ _) (by norm_num)
    · exact le_refl 0
  have h3 := rank_term_nonneg row.rank
  split
  · linarith
  · linarith

/-- Claim C7: whenever the lowercased query occurs as a substring of the
lowercased title, the RelevanceScorer's pre-clamp sum is at least 1.0 and the
returned score is exactly 1.0 (all other signals are nonnegative, so the final
cap clamps the sum to 1.0). -/
theorem C7_exact_substring_clamps_to_one (query : String) (row : FtsRow)
    (h : substrS (lowerStr query) (lowerStr row.art.title) = true) :
    1 ≤ raw_relevance_score query row ∧ calculate_relevance_score query row = 1 := by
  have h1 : 1 ≤ raw_relevance_score query row := by
    unfold raw_relevance_score
    rw [if_pos h]
    have hA : 0 ≤ overlap_ratio (wordSet (lowerStr query)) (wordSet (lowerStr row.art.title))
        * (8 / 10) :=
      mul_nonneg (overlap_ratio_nonneg _ _) (by norm_num)
    have hB : (0 : ℚ) ≤
        (if (lowerStr row.art.summary) ≠ "" then
          overlap_ratio (wordSet (lowerStr query)) (wordSet (lowerStr row.art.summary)) * (5 / 10)
        else 0) := by
      split
      · exact mul_nonneg (overlap_ratio_nonneg _ _) (by norm_num)
      · exact le_refl 0
    have hC := rank_term_nonneg row.rank
    linarith
  exact ⟨h1, by unfold calculate_relevance_score; exact min_eq_right h1⟩

/-- Witness for C7 at the query "Alpha" against an article titled "Alpha". -/
theorem C7_witness :
    substrS (lowerStr "Alpha") (lowerStr rowC7.art.title) = true ∧
      (1 ≤ raw_relevance_score "Alpha" rowC7 ∧ calculate_relevance_score "Alpha" rowC7 = 1) :=
  ⟨by decide, C7_exact_substring_clamps_to_one "Alpha" rowC7 (by decide)⟩

/-- Counterexample to claim C8: the query "ab" shares no word token with the
title "xaby" (or the empty summary) and the backend rank is zero, yet the score
is 1, because "ab" is a substring of "xaby" and the exact-substring signal does
not require a token match. -/
theorem C8_counterexample :
    wordSet (lowerStr "ab") ∩ wordSet (lowerStr rowC8.art.title) = ∅ ∧
      wordSet (lowerStr "ab") ∩ wordSet (lowerStr rowC8.art.summary) = ∅ ∧
      rowC8.rank = 0 ∧
      calculate_relevance_score "ab" rowC8 = 1 ∧
      calculate_relevance_score "ab" rowC8 ≠ 0 := by
  decide

/-- Claim C8 as amended: the score always lies in [0,1], and it is 0 when the
query shares no word token with the title or the summary, the backend rank is
zero, and additionally the lowercased query is not a substring of the
lowercased title. -/
theorem C8_amended_zero_and_clamp :
    (∀ (query : String) (row : FtsRow),
        0 ≤ calculate_relevance_score query row ∧ calculate_relevance_score query row ≤ 1) ∧
      (∀ (query : String) (row : FtsRow),
        wordSet (lowerStr query) ∩ wordSet (lowerStr row.art.title) = ∅ →
        wordSet (lowerStr query) ∩ wordSet (lowerStr row.art.summary) = ∅ →
        row.rank = 0 →
        substrS (lowerStr query) (lowerStr row.art.title) = false →
        calculate_relevance_score query row = 0) := by
  constructor
  · intro query row
    exact ⟨le_min (raw_relevance_score_nonneg query row) zero_le_one, min_le_right _ _⟩
  · intro query row hT hS hR hsub
    have hraw : raw_relevance_score query row = 0 := by
      unfold raw_relevance_score
      rw [overlap_ratio_of_empty_inter hT, overlap_ratio_of_empty_inter hS, hR, hsub]
      norm_num
    unfold calculate_relevance_score
    rw [hraw]
    exact min_eq_left zero_le_one

/-- Witness for the amended C8 at the query "qq" against an article titled
"beta" with empty summary and zero rank. -/
theorem C8_witness :
    (0 ≤ calculate_relevance_score "qq" rowC8w ∧ calculate_relevance_score "qq" rowC8w ≤ 1) ∧
      calculate_relevance_score "qq" rowC8w = 0 :=
  ⟨C8_amended_zero_and_clamp.1 "qq" rowC8w,
    C8_amended_zero_and_clamp.2 "qq" rowC8w (by decide) (by decide) rfl (by decide)⟩

theorem select_loop_bounds (max_articles : Nat) :
    ∀ (l selected : List SearchResult),
      (∀ r ∈ selected, (1 : ℚ) / 5 ≤ r.relevance_score) → selected.length ≤ max_articles →
      (∀ r ∈ select_loop max_articles l selected, (1 : ℚ) / 5 ≤ r.relevance_score) ∧
        (select_loop max_articles l selected).length ≤ max_articles := by
  intro l
  induction l with
  | nil => exact fun selected h hl => ⟨h, hl⟩
  | cons r rest ih =>
      intro selected h hl
      rw [select_loop]
      split
      · exact ⟨h, hl⟩
      · next hfull =>
          split
          · next hsc =>
              apply ih
              · intro x hx
                rcases List.mem_append.mp hx with hx | hx
                · exact h x hx
                · rw [List.mem_singleton.mp hx]
                  exact hsc
              · have hlt : selected.length < max_articles := Nat.lt_of_not_le hfull
                simp only [List.length_append, List.length_singleton]
                omega
          · exact ih selected h hl

/-- Claim C10: every source included in the result of get_context_for_query has
relevance_score at least 0.2 (candidates below the threshold are silently
dropped, even when that empties the result), and at most max_articles sources
are selected. -/
theorem C10_selection_threshold_and_cap (fts : String → List FtsRow) (query : String)
    (max_length max_articles : Nat) :
    (∀ r ∈ (get_context_for_query fts query max_length max_articles).sources,
        (1 : ℚ) / 5 ≤ r.relevance_score) ∧
      (get_context_for_query fts query max_length max_articles).sources.length
        ≤ max_articles := by
  simp only [get_context_for_query]
  split
  · constructor
    · intro r hr
      exact absurd hr (List.not_mem_nil r)
    · exact Nat.zero_le _
  · exact select_loop_bounds max_articles _ []
      (fun r hr => absurd hr (List.not_mem_nil r)) (Nat.zero_le _)

theorem context_pack_length_le (max_length : Nat) :
    ∀ (articles : List SearchResult) (current_length : Nat),
      current_length ≤ max_length →
      (context_pack max_length articles current_length).2 ≤ max_length := by
  intro articles
  induction articles with
  | nil => exact fun c h => h
  | cons a rest ih =>
      intro c h
      rw [context_pack]
      split
      · split
        · exact h
        · exact h
      · next hfit => exact ih _ (Nat.le_of_not_lt hfit)

/-- Counterexample to claim C1: one candidate titled "T" with summary "S" and
maxLength 0; the packing loop emits nothing, yet build_context_text still
appends the attribution line, so the context text has length 13 > 0. -/
theorem C1_counterexample : ¬ ((build_context_text [artC1] 0).length ≤ 0) := by decide

/-- Claim C1 as amended: the packing loop's running length, which counts the
fully included article blocks, never exceeds maxLength; the returned
contextText itself can exceed maxLength because the newline separators, a
truncated final block and the trailing source-attribution line are appended
without being counted against the budget. -/
theorem C1_amended_length_invariant (articles : List SearchResult) (max_length : Nat) :
    (context_pack max_length articles 0).2 ≤ max_length :=
  context_pack_length_le max_length articles 0 (Nat.zero_le _)

/-- Counterexample to claim C2: for the query "alpha", the backend returns two
rows scoring 1/2 and 1 in that order; both clear min_score 0.1 and search
returns them in backend order, not sorted by score descending. -/
theorem C2_counterexample :
    (search ftsC2 "alpha" 10 (1 / 10)).map (fun r => r.relevance_score) = [1 / 2, 1] ∧
      sortedDescBool ((search ftsC2 "alpha" 10 (1 / 10)).map (fun r => r.relevance_score))
        = false := by
  decide

/-- Claim C2 as amended: for every non-blank query, search returns exactly the
hits that cleared min_score, in the backend's rank order (the stable input
order); no re-sort by the computed relevance score happens. -/
theorem C2_amended_backend_order (fts : String → List FtsRow) (query : String)
    (limit : Nat) (min_score : ℚ) (h : trimStr query ≠ "") :
    search fts query limit min_score =
      (((fts (prepare_fts_query query)).take limit).map
          (fun row => toSearchResult row (calculate_relevance_score query row))).filter
        (fun r => decide (min_score ≤ r.relevance_score)) := by
  unfold search
  rw [if_neg h]
  generalize (fts (prepare_fts_query query)).take limit = rows
  induction rows with
  | nil => rfl
  | cons row rows ih =>
      by_cases hc : min_score ≤ calculate_relevance_score query row
      · simp only [List.filterMap_cons, List.map_cons, List.filter_cons, toSearchResult, hc,
          if_true, decide_eq_true_eq, if_pos]
        exact congrArg _ ih
      · simp only [List.filterMap_cons, List.map_cons, List.filter_cons, toSearchResult, hc,
          decide_eq_true_eq, if_neg, if_false]
        exact ih

/-- Witness for the amended C2 at the non-blank query "alpha" against the
two-row backend of the C2 counterexample. -/
theorem C2_witness :
    trimStr "alpha" ≠ "" ∧
      search ftsC2 "alpha" 10 (1 / 10) =
        (((ftsC2 (prepare_fts_query "alpha")).take 10).map
            (fun row => toSearchResult row (calculate_relevance_score "alpha" row))).filter
          (fun r => decide ((1 : ℚ) / 10 ≤ r.relevance_score)) :=
  ⟨by decide, C2_amended_backend_order ftsC2 "alpha" 10 (1 / 10) (by decide)⟩

theorem review_results_eq (question : String) (l : List SearchResult) :
    review_results question l =
      (l.map (reviewed question)).filter
        (fun r => decide ((1 : ℚ) / 20 < r.relevance_score)) := by
  induction l with
  | nil => rfl
  | cons r l ih =>
      by_cases h : (1 : ℚ) / 20 < assess_article_relevance question r
      · simp only [review_results, List.filterMap_cons, List.map_cons, List.filter_cons,
          reviewed, h, if_true, decide_eq_true_eq, if_pos] at ih ⊢
        exact congrArg _ ih
      · simp only [review_results, List.filterMap_cons, List.map_cons, List.filter_cons,
          reviewed, h, decide_eq_true_eq, if_neg, if_false] at ih ⊢
        exact ih

/-- Counterexample to claim C3: for the question "Alpha beta gamma delta" the
merged candidates X and Y both carry pre-review score 1 (X first), but the
review stage rescores them to 7/10 and 1 while keeping the pre-review order, so
the returned scores [7/10, 1] are not in descending order. -/
theorem C3_counterexample :
    (search_with_multiple_queries ftsC3 dbC3 qC3 10).results.map (fun r => r.relevance_score)
        = [7 / 10, 1] ∧
      sortedDescBool ((search_with_multiple_queries ftsC3 dbC3 qC3 10).results.map
        (fun r => r.relevance_score)) = false := by
  decide

/-- Claim C3 as amended: the list entering the review stage is sorted
descending by the pre-review merged relevance scores, and the output of
search_with_multiple_queries is that list filtered in order with each kept
entry's relevance_score overwritten by the review score; the carried scores
themselves need not be descending. -/
theorem C3_amended_prereview_order (fts : String → List FtsRow) (db : List ArticleRow)
    (question : String) (limit : Nat) :
    (search_with_multiple_queries fts db question limit).results =
        (((sortByScoreDesc (merged_candidates fts db question limit)).take limit).map
            (reviewed question)).filter
          (fun r => decide ((1 : ℚ) / 20 < r.relevance_score)) ∧
      List.Sorted scoreGE (sortByScoreDesc (merged_candidates fts db question limit)) :=
  ⟨review_results_eq question _, List.sorted_insertionSort scoreGE _⟩

def idsOf (l : List SearchResult) : List String := l.map (fun r => r.article_id)

theorem ids_append_nodup {m : List SearchResult} {r : SearchResult}
    (hany : ¬ m.any (fun x => x.article_id == r.article_id) = true)
    (h : (idsOf m).Nodup) : (idsOf (m ++ [r])).Nodup := by
  have hnot : r.article_id ∉ idsOf m := by
    simp only [idsOf, List.mem_map]
    rintro ⟨x, hx, hxe⟩
    exact hany (List.any_eq_true.mpr ⟨x, hx, beq_iff_eq.mpr hxe⟩)
  simp only [idsOf, List.map_append, List.map_cons, List.map_nil]
  rw [List.nodup_append]
  refine ⟨h, List.nodup_singleton _, ?_⟩
  intro b hb hc
  rw [List.mem_singleton.mp hc] at hb
  exact hnot hb

theorem insertIfAbsent_nodup {m : List SearchResult} {r : SearchResult}
    (h : (idsOf m).Nodup) : (idsOf (insertIfAbsent m r)).Nodup := by
  unfold insertIfAbsent
  split
  · exact h
  · next hany => exact ids_append_nodup hany h

theorem insertOrReplace_nodup {m : List SearchResult} {r : SearchResult}
    (h : (idsOf m).Nodup) : (idsOf (insertOrReplace m r)).Nodup := by
  unfold insertOrReplace
  split
  · have heq : idsOf (m.map fun x => if x.article_id == r.article_id then r else x)
        = idsOf m := by
      simp only [idsOf, List.map_map]
      apply List.map_congr_left
      intro x hx
      simp only [Function.comp_apply]
      split
      · next hbe => exact (beq_iff_eq.mp hbe).symm
      · rfl
    rw [heq]
    exact h
  · next hany => exact ids_append_nodup hany h

theorem foldl_insertIfAbsent_nodup (hits : List SearchResult) :
    ∀ m, (idsOf m).Nodup → (idsOf (hits.foldl insertIfAbsent m)).Nodup := by
  induction hits with
  | nil => exact fun m h => h
  | cons r hits ih => exact fun m h => ih _ (insertIfAbsent_nodup h)

theorem merge_variant_results_nodup (fts : String → List FtsRow) (queries : List String)
    (limit : Nat) : (idsOf (merge_variant_results fts queries limit)).Nodup := by
  unfold merge_variant_results
  have key : ∀ m, (idsOf m).Nodup →
      (idsOf (queries.foldl
        (fun acc q => (search fts q limit (1 / 1000)).foldl insertIfAbsent acc) m)).Nodup := by
    induction queries with
    | nil => exact fun m h => h
    | cons q qs ih => exact fun m h => ih _ (foldl_insertIfAbsent_nodup _ m h)
  exact key [] List.nodup_nil

theorem key_backstops_nodup (db : List ArticleRow) (question : String) :
    ∀ m, (idsOf m).Nodup → (idsOf (apply_key_term_backstops db question m)).Nodup := by
  unfold apply_key_term_backstops
  generalize extract_key_terms question = terms
  induction terms with
  | nil => exact fun m h => h
  | cons t ts ih =>
      intro m hm
      rw [List.foldl_cons]
      apply ih
      cases h : exactTitleLookup db t with
      | none => simp only [h]; exact hm
      | some a =>
          simp only [h]
          split
          · exact hm
          · next hany => exact ids_append_nodup hany hm

theorem merged_candidates_nodup (fts : String → List FtsRow) (db : List ArticleRow)
    (question : String) (limit : Nat) :
    (idsOf (merged_candidates fts db question limit)).Nodup := by
  unfold merged_candidates apply_exact_backstop
  cases h : exactTitleLookup db (trimStr question) with
  | none =>
      simp only [h]
      exact key_backstops_nodup db question _ (merge_variant_results_nodup fts _ limit)
  | some a =>
      simp only [h]
      exact key_backstops_nodup db question _
        (insertOrReplace_nodup (merge_variant_results_nodup fts _ limit))

theorem review_ids_sublist (question : String) (l : List SearchResult) :
    (idsOf (review_results question l)).Sublist (idsOf l) := by
  rw [review_results_eq]
  have h1 : (idsOf ((l.map (reviewed question)).filter
        (fun r => decide ((1 : ℚ) / 20 < r.relevance_score)))).Sublist
      (idsOf (l.map (reviewed question))) :=
    List.Sublist.map _ (List.filter_sublist _)
  have h2 : idsOf (l.map (reviewed question)) = idsOf l := by
    simp only [idsOf, List.map_map]
    apply List.map_congr_left
    intro x hx
    rfl
  rw [h2] at h1
  exact h1

/-- Claim C9: the reviewed result list of search_with_multiple_queries contains
no two entries with the same article_id: the merged mapping is keyed by
article_id, and sorting, truncation and review preserve key distinctness. -/
theorem C9_dedup_invariant (fts : String → List FtsRow) (db : List ArticleRow)
    (question : String) (limit : Nat) :
    ((search_with_multiple_queries fts db question limit).results.map
      (fun r => r.article_id)).Nodup := by
  have h1 : (idsOf (merged_candidates fts db question limit)).Nodup :=
    merged_candidates_nodup fts db question limit
  have hperm : (sortByScoreDesc (merged_candidates fts db question limit)).Perm
      (merged_candidates fts db question limit) :=
    List.perm_insertionSort scoreGE _
  have h2 : (idsOf (sortByScoreDesc (merged_candidates fts db question limit))).Nodup := by
    refine ((List.Perm.map (fun r => r.article_id) hperm).nodup_iff).mpr ?_
    exact h1
  have h3 : (idsOf ((sortByScoreDesc (merged_candidates fts db question limit)).take
      limit)).Nodup :=
    List.Nodup.sublist (List.Sublist.map _ (List.take_sublist _ _)) h2
  exact List.Nodup.sublist (review_ids_sublist question _) h3

theorem mem_insertOrReplace_self (m : List SearchResult) (r : SearchResult) :
    r ∈ insertOrReplace m r := by
  unfold insertOrReplace
  split
  · next hany =>
      obtain ⟨x, hx, hbe⟩ := List.any_eq_true.mp hany
      refine List.mem_map.mpr ⟨x, hx, ?_⟩
      rw [if_pos hbe]
  · exact List.mem_append_right _ (List.mem_singleton_self r)

theorem mem_apply_key_term_backstops (db : List ArticleRow) (question : String)
    (r : SearchResult) :
    ∀ m, r ∈ m → r ∈ apply_key_term_backstops db question m := by
  unfold apply_key_term_backstops
  generalize extract_key_terms question = terms
  induction terms with
  | nil => exact fun m hm => hm
  | cons t ts ih =>
      intro m hm
      rw [List.foldl_cons]
      apply ih
      cases h : exactTitleLookup db t with
      | none => simp only [h]; exact hm
      | some a =>
          simp only [h]
          split
          · exact hm
          · exact List.mem_append_left _ hm

/-- Counterexample to claim C4: for the question "Epsilon  zeta kappa theta
maybe" (two spaces after "Epsilon"), the variant "Epsilon zeta" finds the
article E with score 4/5, and the exact-title backstop then overwrites the
already-present entry with relevanceScore 1 instead of keeping 4/5. -/
theorem C4_counterexample :
    (merge_variant_results ftsC4 (generate_search_queries qC4) 10).map
        (fun r => (r.article_id, r.relevance_score)) = [("E", 4 / 5)] ∧
      (merged_candidates ftsC4 dbC4 qC4 10).map
        (fun r => (r.article_id, r.relevance_score)) = [("E", 1)] := by
  decide

/-- Claim C4 as amended: the exact-title backstop assigns the matched article
into the merged mapping unconditionally with relevanceScore 1.0, overwriting
any entry with the same externalId inserted by an earlier variant (the entry
keeps its position but not its score); only the key-term backstop checks for
presence first. -/
theorem C4_amended_backstop_overwrites (fts : String → List FtsRow) (db : List ArticleRow)
    (question : String) (limit : Nat) (a : ArticleRow)
    (h : exactTitleLookup db (trimStr question) = some a) :
    ∃ r ∈ merged_candidates fts db question limit,
      r.article_id = a.article_id ∧ r.relevance_score = 1 := by
  refine ⟨exact_match_result a, ?_, rfl, rfl⟩
  unfold merged_candidates apply_exact_backstop
  rw [h]
  exact mem_apply_key_term_backstops db question _ _ (mem_insertOrReplace_self _ _)

/-- Witness for the amended C4 at the C4 scenario, where the question exactly
matches the stored title. -/
theorem C4_witness :
    exactTitleLookup dbC4 (trimStr qC4) = some artC4 ∧
      ∃ r ∈ merged_candidates ftsC4 dbC4 qC4 10,
        r.article_id = "E" ∧ r.relevance_score = 1 :=
  ⟨by decide, C4_amended_backstop_overwrites ftsC4 dbC4 qC4 10 artC4 (by decide)⟩

/-- Counterexample to claim C5: two survivor-free inputs produce different
context texts, so no single fixed sentinel exists.  When the search itself is
empty the text is "No relevant Wikipedia articles found."; when hits exist but
all score below the 0.2 selection threshold it is "No relevant information
found.". -/
theorem C5_counterexample :
    (get_context_for_query ftsC5 "nomatchquery" 2000 5).sources = [] ∧
      (get_context_for_query ftsC5 qC5 2000 5).sources = [] ∧
      (get_context_for_query ftsC5 "nomatchquery" 2000 5).context_text ≠
        (get_context_for_query ftsC5 qC5 2000 5).context_text := by
  decide

/-- Claim C5 as amended: whenever no candidate survives selection, the result
has empty sources, confidence 0 and one of the two fixed sentinel texts, and
get_context_for_query is a total function (it never raises). -/
theorem C5_amended_two_sentinels (fts : String → List FtsRow) (query : String)
    (max_length max_articles : Nat)
    (h : select_best_articles (search fts query (max_articles * 2) (1 / 10)) max_articles
      = []) :
    (get_context_for_query fts query max_length max_articles).sources = [] ∧
      (get_context_for_query fts query max_length max_articles).confidence_score = 0 ∧
      ((get_context_for_query fts query max_length max_articles).context_text =
          "No relevant Wikipedia articles found." ∨
        (get_context_for_query fts query max_length max_articles).context_text =
          "No relevant information found.") := by
  simp only [get_context_for_query]
  split
  · exact ⟨rfl, rfl, Or.inl rfl⟩
  · rw [h]
    refine ⟨rfl, ?_, Or.inr ?_⟩
    · simp [calculate_confidence_score]
    · simp [build_context_text]

/-- Witness for the amended C5 at the below-threshold scenario of the C5
counterexample. -/
theorem C5_witness :
    select_best_articles (search ftsC5 qC5 (5 * 2) (1 / 10)) 5 = [] ∧
      ((get_context_for_query ftsC5 qC5 2000 5).sources = [] ∧
        (get_context_for_query ftsC5 qC5 2000 5).confidence_score = 0 ∧
        ((get_context_for_query ftsC5 qC5 2000 5).context_text =
            "No relevant Wikipedia articles found." ∨
          (get_context_for_query ftsC5 qC5 2000 5).context_text =
            "No relevant information found.")) :=
  ⟨by decide, C5_amended_two_sentinels ftsC5 qC5 2000 5 (by decide)⟩

/-- Counterexample to claim C6: for the query "is alpha" and one included
candidate titled "alpha" with relevance 1, the code computes confidence 7/10
(coverage 1/2 over both query words including the short word "is"), while the
claim's formula with the 3-character filter prescribes 4/5 (coverage 1/1). -/
theorem C6_counterexample :
    calculate_confidence_score [artC6] "is alpha" = 7 / 10 ∧
      claimed_confidence [artC6] "is alpha" = 4 / 5 ∧
      (7 / 10 : ℚ) ≠ 4 / 5 := by
  decide

theorem covered_foldl_eq (qws : Finset String) (l : List SearchResult) :
    ∀ acc : Finset String,
      l.foldl (fun acc a => acc ∪ (article_tokens a ∩ qws)) acc =
        acc ∪ qws.filter (fun w => ∃ a ∈ l, w ∈ article_tokens a) := by
  induction l with
  | nil =>
      intro acc
      ext w
      simp
  | cons a l ih =>
      intro acc
      rw [List.foldl_cons, ih]
      ext w
      simp only [Finset.mem_union, Finset.mem_filter, Finset.mem_inter, List.mem_cons]
      constructor
      · rintro (⟨hacc | ⟨hta, hq⟩⟩ | ⟨hq, x, hx, htx⟩)
        · exact Or.inl hacc
        · exact Or.inr ⟨hq, a, Or.inl rfl, hta⟩
        · exact Or.inr ⟨hq, x, Or.inr hx, htx⟩
      · rintro (hacc | ⟨hq, x, hx | hx, htx⟩)
        · exact Or.inl (Or.inl hacc)
        · exact Or.inl (Or.inr ⟨hx ▸ htx, hq⟩)
        · exact Or.inr ⟨hq, x, hx, htx⟩

/-- Claim C6 as amended: the confidence equals 0.5 x mean relevance + 0.3 x
min(count/3, 1) + 0.2 x coverage, capped at 1, where the coverage ratio counts
the distinct question word tokens of any length (no 3-character minimum) that
appear in some included candidate's title+summary token set, divided by the
total number of distinct question words. -/
theorem C6_amended_all_words_coverage (articles : List SearchResult) (query : String) :
    calculate_confidence_score articles query = amended_confidence articles query := by
  unfold calculate_confidence_score amended_confidence
  split
  · rfl
  · simp only []
    rw [covered_foldl_eq (wordSet (lowerStr query)) articles ∅, Finset.empty_union]

/-- Witness for C10 at the two-row backend of the C2 scenario: the top hit is a
member of the returned sources and the bounds hold there. -/
theorem C10_witness :
    (1 : ℚ) / 5 ≤ (toSearchResult { art := artC2B, rank := 0, rawSnippet := "" }
        1).relevance_score ∧
      (get_context_for_query ftsC2 "alpha" 2000 5).sources.length ≤ 5 :=
  ⟨(C10_selection_threshold_and_cap ftsC2 "alpha" 2000 5).1 _ (by decide),
    (C10_selection_threshold_and_cap ftsC2 "alpha" 2000 5).2⟩
